import Mathlib

/-!
# Verification of the `@vafast/opentelemetry` middleware

A shallow embedding of `src/index.ts` of the `vafast-opentelemetry`
package.  JavaScript objects are modelled as Lean structures; mutation is
modelled by threading values; `async`/`await` control flow is modelled by
its deterministic settled outcome; operations performed on a span are
recorded in an explicit, ordered event log.  External OpenTelemetry API
objects (tracer, context, propagator) are modelled by the data the
middleware passes to and reads from them.
-/

namespace VafastOtel

/-- A thrown JavaScript value: either an `Error` instance carrying a
`message`, or any other value, represented by its `String(...)` form. -/
inductive JsError
  | err (message : String)
  | nonError (stringForm : String)
deriving DecidableEq, Repr

/-- `error instanceof Error ? error.message : String(error)` —
the status message the middleware writes on failure. -/
def JsError.statusMessage : JsError → String
  | .err m => m
  | .nonError s => s

/-- `(error as Error)?.message` — `undefined` (`none`) when the thrown
value is not an `Error` instance. -/
def JsError.jsMessage : JsError → Option String
  | .err m => some m
  | .nonError _ => none

/-- Is the thrown value an `Error` instance (`error instanceof Error`)? -/
def JsError.isErrorInstance : JsError → Bool
  | .err _ => true
  | .nonError _ => false

/-- Span status codes of `@opentelemetry/api` (`SpanStatusCode`). -/
inductive SpanStatusCode
  | unset
  | ok
  | error
deriving DecidableEq, Repr

/-- Span kinds used by the middleware (`SpanKind.SERVER`). -/
inductive SpanKind
  | server
  | internal
deriving DecidableEq, Repr

/-- Attribute values written by this package: strings and numbers. -/
inductive AttrValue
  | str (s : String)
  | num (n : Nat)
deriving DecidableEq, Repr

/-- The OpenTelemetry context handed to `startActiveSpan` as parent.
`propagation.extract` is external; the model records the header carrier it
was given, which is all the middleware's observable protocol depends on. -/
inductive OtelCtx
  | extracted (carrier : List (String × String))
deriving DecidableEq, Repr

/-- An operation performed on a span, in program order.  The span's life
is fully described by its ordered event log. -/
inductive SpanEvent
  | startSpan (name : String) (kind : SpanKind) (parent : OtelCtx)
  | setStatus (code : SpanStatusCode) (message : Option String)
  | recordException (error : JsError)
  | setAttributes (attrs : List (String × AttrValue))
  | updateName (name : String)
  | endSpan
deriving DecidableEq, Repr

/-- The parsed form of a request URL (`new URL(req.url)`): the middleware
reads only `href` (the full URL string `req.url`) and `pathname`. -/
structure JsURL where
  href : String
  pathname : String
deriving DecidableEq, Repr

/-- An HTTP `Request`: method, URL and headers.  `headers` is the list of
`req.headers.entries()` pairs (the Fetch `Headers` iteration order). -/
structure Request where
  method : String
  url : JsURL
  headers : List (String × String)
deriving DecidableEq, Repr

/-- A response body stream: its full text, and whether the stream has
already been consumed (reading `text()` consumes it). -/
structure Body where
  text : String
  consumed : Bool
deriving DecidableEq, Repr

/-- An HTTP `Response`: status, headers and optional body stream. -/
structure Response where
  status : Nat
  headers : List (String × String)
  body : Option Body
deriving DecidableEq, Repr

/-- `response.clone()`: an independent copy whose body is a fresh,
unconsumed duplicate of the stream.  The original is untouched. -/
def Response.clone (r : Response) : Response :=
  { r with body := r.body.map fun b => { b with consumed := false } }

/-- `await response.text()`: reads the body's text, consuming the stream.
Returns the text together with the response in its post-read state. -/
def Response.text (r : Response) : String × Response :=
  match r.body with
  | none => ("", r)
  | some b => (b.text, { r with body := some { b with consumed := true } })

/-- The header mapping the middleware builds from the request
(`req.headers.toJSON()` on the fast path, `Object.fromEntries(entries())`
otherwise; both yield the same mapping). -/
def headerMapping (req : Request) : List (String × String) :=
  req.headers

/-- JavaScript `String.prototype.toLowerCase()`: lowercases the string
character by character (header names are ASCII). -/
def jsToLower (s : String) : String :=
  ⟨s.data.map Char.toLower⟩

/-- JavaScript plain-object assignment `attributes[k] = v` on a record
represented as an insertion-ordered association list: an existing key is
overwritten in place, a new key is appended. -/
def recordSet (m : List (String × AttrValue)) (k : String) (v : AttrValue) :
    List (String × AttrValue) :=
  if m.any (fun p => p.1 == k) then
    m.map fun p => if p.1 == k then (k, v) else p
  else m ++ [(k, v)]

/-- The attribute record built on the middleware's success path
(lines 399–432 of the source): base request/response attributes, the
cloned body's text length when a body is present, request headers
(lowercased, skipping `user-agent`), then response headers (lowercased). -/
def successAttributes (req : Request) (response : Response) :
    List (String × AttrValue) :=
  let attributes : List (String × AttrValue) :=
    [("http.request.method", .str req.method),
     ("url.path", .str req.url.pathname),
     ("url.full", .str req.url.href),
     ("http.response.status_code", .num response.status)]
  let attributes :=
    match response.body with
    | some _ =>
        let clonedResponse := response.clone
        let text := clonedResponse.text.1
        recordSet attributes "http.response.body.size" (.num text.length)
    | none => attributes
  let attributes := req.headers.foldl
    (fun acc kv =>
      if jsToLower kv.1 == "user-agent" then acc
      else recordSet acc ("http.request.header." ++ jsToLower kv.1) (.str kv.2))
    attributes
  response.headers.foldl
    (fun acc kv =>
      recordSet acc ("http.response.header." ++ jsToLower kv.1) (.str kv.2))
    attributes

/-- How the call `next()` behaves: it can throw synchronously before
producing a promise, return a promise that resolves with a response, or
return a promise that rejects. -/
inductive CallOutcome (α : Type) where
  | syncThrow (e : JsError)
  | resolves (a : α)
  | rejects (e : JsError)
deriving DecidableEq, Repr

/-- The semantics of `await next()` inside a `try` block: a synchronous
throw and an asynchronous rejection both surface as the thrown error. -/
def awaitCall : CallOutcome α → Except JsError α
  | .syncThrow e => .error e
  | .resolves a => .ok a
  | .rejects e => .error e

deriving instance DecidableEq for Except

/-- Result of one middleware invocation: what the returned promise settles
with, and the ordered list of operations performed on the root span. -/
structure MwResult where
  result : Except JsError Response
  events : List SpanEvent
deriving DecidableEq, Repr

/-- One invocation of the middleware returned by `opentelemetry()`
(source lines 370–464): builds the header mapping, extracts the parent
context, starts the `"request"` server span, runs `next()` inside the
span's context, and on the way out sets status/attributes (success) or
status/exception (failure), then — in the `finally` block — renames the
span to `"<METHOD> <pathname>"` and ends it.  The raw SDK
`tracer.startActiveSpan` does not itself end spans. -/
def middlewareRun (req : Request) (next : CallOutcome Response) : MwResult :=
  let ctx := OtelCtx.extracted (headerMapping req)
  let startEvt := SpanEvent.startSpan "request" .server ctx
  let tryCatch : Except JsError Response × List SpanEvent :=
    match awaitCall next with
    | .ok response =>
        (.ok response,
         [SpanEvent.setStatus .ok none,
          SpanEvent.setAttributes (successAttributes req response)])
    | .error e =>
        (.error e,
         SpanEvent.setStatus .error (some e.statusMessage) ::
           (if e.isErrorInstance then [SpanEvent.recordException e] else []))
  let url := req.url
  let finallyEvts :=
    [SpanEvent.updateName (req.method ++ " " ++ url.pathname),
     SpanEvent.endSpan]
  { result := tryCatch.1
    events := startEvt :: tryCatch.2 ++ finallyEvts }

/-- The mutable state of a span as seen by the helper wrappers: whether it
is still recording (`isRecording()`, false once ended), and the ordered
log of operations performed on it. -/
structure SpanState where
  recording : Bool
  log : List SpanEvent
deriving DecidableEq, Repr

/-- `span.setStatus({code, message})`. -/
def SpanState.setStatus (s : SpanState) (code : SpanStatusCode)
    (message : Option String) : SpanState :=
  { s with log := s.log ++ [SpanEvent.setStatus code message] }

/-- `span.recordException(err)`. -/
def SpanState.recordException (s : SpanState) (e : JsError) : SpanState :=
  { s with log := s.log ++ [SpanEvent.recordException e] }

/-- `span.end()`: after ending, `isRecording()` reports false. -/
def SpanState.endSpan (s : SpanState) : SpanState :=
  { recording := false, log := s.log ++ [SpanEvent.endSpan] }

/-- How the work function `fn(span)` passed to `startActiveSpan` behaves:
it can return a plain value or throw synchronously (`sync`), or return a
promise that later resolves or rejects (`promise`). -/
inductive WorkResult (α : Type) where
  | sync (r : Except JsError α)
  | promise (r : Except JsError α)
deriving DecidableEq, Repr

/-- `createActiveSpanHandler` (source lines 199–231), given the state of
the span when the work settles.  A synchronous value: end the span if
still recording.  A promise: attach only a fulfillment handler
(`result.then(...)`) that ends the span if still recording — there is no
rejection handler, so a rejected promise propagates with no span
operation.  A synchronous throw lands in the `catch` block: rethrown
untouched if the span is no longer recording, otherwise status Error with
`err?.message`, `recordException`, `end`, rethrow. -/
def createActiveSpanHandler (span : SpanState) :
    WorkResult α → Except JsError α × SpanState
  | .sync (.ok v) =>
      (Except.ok v, if span.recording then span.endSpan else span)
  | .sync (.error e) =>
      if !span.recording then (Except.error e, span)
      else
        (Except.error e,
         ((span.setStatus .error e.jsMessage).recordException e).endSpan)
  | .promise (.ok v) =>
      (Except.ok v, if span.recording then span.endSpan else span)
  | .promise (.error e) =>
      (Except.error e, span)

/-- `startActiveSpan` (source lines 294–319) and the `startActiveSpan` of
the tracer returned by `getTracer()` (lines 267–289) both wrap the caller's
work function with `createActiveSpanHandler` before delegating to the real
tracer, for every argument arity.  The handler applied to the work's
settled behavior is therefore the same in both. -/
def startActiveSpanHandler (span : SpanState) (work : WorkResult α) :
    Except JsError α × SpanState :=
  createActiveSpanHandler span work

/-- `getCurrentSpan` (source lines 323–330): reads the active context's
entry under the span context key.  The active context is modelled by that
entry: `none` when no span is installed. -/
def getCurrentSpan (active : Option SpanState) : Option SpanState :=
  active

/-- `setAttributes` (source lines 337–339):
`!!getCurrentSpan()?.setAttributes(attributes)`.  When a span is present,
`Span.setAttributes` returns the span itself (`this`, a truthy object), so
the double negation yields `true`; optional chaining on `undefined` yields
`undefined`, hence `false`, and nothing is set. -/
def setAttributes (active : Option SpanState)
    (attributes : List (String × AttrValue)) : Bool × Option SpanState :=
  match getCurrentSpan active with
  | none => (false, none)
  | some s =>
      (true, some { s with log := s.log ++ [SpanEvent.setAttributes attributes] })

/-- Is the tracer resolved from the global registry a `ProxyTracer`
placeholder (no real SDK installed yet) or a real tracer? -/
inductive TracerKind
  | proxy
  | real
deriving DecidableEq, Repr

/-- The environment a call of the `opentelemetry()` factory runs in:
what `trace.getTracer(serviceName)` resolves to, how constructing and
starting the `NodeSDK` behaves, whether a global context manager is
already installed, and the supplied `contextManager` option together with
the outcome of enabling/installing it. -/
structure FactoryEnv where
  resolvedTracer : TracerKind
  sdkBootstrap : Except JsError Unit
  globalContextManagerInstalled : Bool
  contextManager : Option (Except JsError Unit)
deriving DecidableEq, Repr

/-- What a completed factory call produced: the middleware function, and
whether the supplied context manager ended up installed globally. -/
structure FactoryOutcome where
  middlewareReturned : Bool
  contextManagerInstalled : Bool
deriving DecidableEq, Repr

/-- The `opentelemetry()` factory (source lines 341–370): if the resolved
tracer is a `ProxyTracer`, construct and start a `NodeSDK` — this step is
NOT wrapped in any `try`/`catch`, so a bootstrap failure propagates out of
the factory.  The context-manager installation, by contrast, is wrapped in
`try { ... } catch {}` and its failure is swallowed.  On completion the
factory returns the middleware function. -/
def opentelemetryFactory (env : FactoryEnv) : Except JsError FactoryOutcome := do
  if env.resolvedTracer = .proxy then
    match env.sdkBootstrap with
    | .error e => throw e
    | .ok _ => pure ()
  let installed :=
    if !env.globalContextManagerInstalled then
      match env.contextManager with
      | some (.ok _) => true
      | some (.error _) => false
      | none => false
    else false
  pure { middlewareReturned := true, contextManagerInstalled := installed }

/-! ## Interleaving model for concurrently in-flight invocations

The middleware runs `next()` inside
`otelContext.with(trace.setSpan(ctx, rootSpan), ...)` (source lines
387–459): the active-span association is an immutable context value bound
per invocation and threaded through that invocation's own await-chain —
not shared mutable state.  One middleware invocation is modelled as a task
with two observable steps: span creation (the SDK's id generator hands out
a fresh trace id and span id — modelled from the spec: each root span
receives fresh, previously unused identifiers, represented by a counter)
and the downstream handler's observation of the active span, which reads
the ids carried by the task's own context value.  A scheduler interleaves
the steps of the tasks arbitrarily. -/

/-- The phase of one in-flight middleware invocation: not yet started;
span created with the given ids, the context value holding them bound for
the invocation's continuation; or handler finished, having observed the
ids read from that context value. -/
inductive TaskPhase
  | pending
  | running (traceId : Nat) (spanId : Nat)
  | done (traceId : Nat) (spanId : Nat)
deriving DecidableEq, Repr

/-- The ids held by a task's context value, if the span was created. -/
def TaskPhase.ids : TaskPhase → Option (Nat × Nat)
  | .pending => none
  | .running t s => some (t, s)
  | .done t s => some (t, s)

/-- The single-threaded event loop: the SDK id generator's counter and the
phase of each of the `n` in-flight invocations. -/
structure EventLoop (n : Nat) where
  nextId : Nat
  tasks : Fin n → TaskPhase

/-- All invocations issued, none yet scheduled. -/
def initLoop (n : Nat) : EventLoop n :=
  { nextId := 0, tasks := fun _ => .pending }

/-- Run one step of invocation `i`: a pending task creates its span
(fresh ids drawn from the generator, bound into the task's context); a
running task's handler observes the ids from its own context; a finished
task is left alone. -/
def stepTask {n : Nat} (s : EventLoop n) (i : Fin n) : EventLoop n :=
  match s.tasks i with
  | .pending =>
      { nextId := s.nextId + 1
        tasks := Function.update s.tasks i (.running s.nextId s.nextId) }
  | .running t sp =>
      { s with tasks := Function.update s.tasks i (.done t sp) }
  | .done _ _ => s

/-- Run the event loop under an arbitrary interleaving of task steps. -/
def runSched (n : Nat) (sched : List (Fin n)) : EventLoop n :=
  sched.foldl stepTask (initLoop n)

/-- Reachability invariant of the event loop: every allocated id pair is
diagonal (trace id = span id here, both drawn from the same fresh counter
value), below the generator counter, and pairwise distinct across tasks. -/
def LoopInv {n : Nat} (s : EventLoop n) : Prop :=
  (∀ i : Fin n, ∀ p : Nat × Nat, (s.tasks i).ids = some p →
    p.2 = p.1 ∧ p.1 < s.nextId) ∧
  (∀ i j : Fin n, ∀ p q : Nat × Nat, i ≠ j →
    (s.tasks i).ids = some p → (s.tasks j).ids = some q → p.1 ≠ q.1)

/-- Observation predicate: is this event a span creation? -/
def SpanEvent.isStart : SpanEvent → Bool
  | .startSpan _ _ _ => true
  | _ => false

/-- Observation predicate: is this event a `span.end()`? -/
def SpanEvent.isEnd : SpanEvent → Bool
  | .endSpan => true
  | _ => false

/-- Observation predicate: is this event a `span.setAttributes(...)`? -/
def SpanEvent.isSetAttrs : SpanEvent → Bool
  | .setAttributes _ => true
  | _ => false

/-- `http.request.header.<name>` attribute entries: one per request
header, name lowercased, excluding `user-agent`. -/
def requestHeaderAttrs (hs : List (String × String)) :
    List (String × AttrValue) :=
  (hs.filter fun kv => !(jsToLower kv.1 == "user-agent")).map
    fun kv => ("http.request.header." ++ jsToLower kv.1, AttrValue.str kv.2)

/-- `http.response.header.<name>` attribute entries: one per response
header, name lowercased. -/
def responseHeaderAttrs (hs : List (String × String)) :
    List (String × AttrValue) :=
  hs.map fun kv => ("http.response.header." ++ jsToLower kv.1, AttrValue.str kv.2)

/-- The attribute batch exactly as the spec describes it. -/
def specSuccessAttributes (req : Request) (response : Response) :
    List (String × AttrValue) :=
  [("http.request.method", AttrValue.str req.method),
   ("url.path", AttrValue.str req.url.pathname),
   ("url.full", AttrValue.str req.url.href),
   ("http.response.status_code", AttrValue.num response.status)]
  ++ (match response.body with
      | some b => [("http.response.body.size", AttrValue.num b.text.length)]
      | none => [])
  ++ requestHeaderAttrs req.headers
  ++ responseHeaderAttrs response.headers

lemma loopInv_init (n : Nat) : LoopInv (initLoop n) := by
  constructor
  · intro i p h
    simp [initLoop, TaskPhase.ids] at h
  · intro i j p q _ h
    simp [initLoop, TaskPhase.ids] at h

lemma stepTask_pending {n : Nat} (s : EventLoop n) (i : Fin n)
    (h : s.tasks i = .pending) :
    stepTask s i =
      { nextId := s.nextId + 1
        tasks := Function.update s.tasks i (.running s.nextId s.nextId) } := by
  simp [stepTask, h]

lemma stepTask_running {n : Nat} (s : EventLoop n) (i : Fin n) (t sp : Nat)
    (h : s.tasks i = .running t sp) :
    stepTask s i =
      { s with tasks := Function.update s.tasks i (.done t sp) } := by
  simp [stepTask, h]

lemma stepTask_done {n : Nat} (s : EventLoop n) (i : Fin n) (t sp : Nat)
    (h : s.tasks i = .done t sp) : stepTask s i = s := by
  simp [stepTask, h]

lemma loopInv_step {n : Nat} (s : EventLoop n) (i : Fin n)
    (h : LoopInv s) : LoopInv (stepTask s i) := by
  obtain ⟨hbound, hdist⟩ := h
  cases hphase : s.tasks i with
  | pending =>
      rw [stepTask_pending s i hphase]
      refine ⟨?_, ?_⟩
      · intro k p hk
        dsimp only at hk ⊢
        simp only [Function.update_apply] at hk
        by_cases hki : k = i
        · simp [hki, TaskPhase.ids, Prod.ext_iff] at hk
          omega
        · simp only [if_neg hki] at hk
          have := hbound k p hk
          omega
      · intro k l p q hkl hk hl
        dsimp only at hk hl
        simp only [Function.update_apply] at hk hl
        by_cases hki : k = i <;> by_cases hli : l = i
        · exact absurd (hki.trans hli.symm) hkl
        · simp [hki, TaskPhase.ids, Prod.ext_iff] at hk
          simp only [if_neg hli] at hl
          have := hbound l q hl
          omega
        · simp only [if_neg hki] at hk
          simp [hli, TaskPhase.ids, Prod.ext_iff] at hl
          have := hbound k p hk
          omega
        · simp only [if_neg hki] at hk
          simp only [if_neg hli] at hl
          exact hdist k l p q hkl hk hl
  | running t sp =>
      rw [stepTask_running s i t sp hphase]
      have hids : (s.tasks i).ids = some (t, sp) := by
        simp [hphase, TaskPhase.ids]
      have hbts := hbound i (t, sp) hids
      simp only at hbts
      refine ⟨?_, ?_⟩
      · intro k p hk
        dsimp only at hk ⊢
        simp only [Function.update_apply] at hk
        by_cases hki : k = i
        · simp [hki, TaskPhase.ids, Prod.ext_iff] at hk
          omega
        · simp only [if_neg hki] at hk
          exact hbound k p hk
      · intro k l p q hkl hk hl
        dsimp only at hk hl
        simp only [Function.update_apply] at hk hl
        have hk' : (s.tasks k).ids = some p := by
          by_cases hki : k = i
          · simp [hki, TaskPhase.ids, Prod.ext_iff] at hk
            rw [hki, hids]
            simp [Prod.ext_iff]
            omega
          · simpa [if_neg hki] using hk
        have hl' : (s.tasks l).ids = some q := by
          by_cases hli : l = i
          · simp [hli, TaskPhase.ids, Prod.ext_iff] at hl
            rw [hli, hids]
            simp [Prod.ext_iff]
            omega
          · simpa [if_neg hli] using hl
        exact hdist k l p q hkl hk' hl'
  | done t sp =>
      rw [stepTask_done s i t sp hphase]
      exact ⟨hbound, hdist⟩

lemma loopInv_foldl {n : Nat} (sched : List (Fin n)) (s : EventLoop n)
    (h : LoopInv s) : LoopInv (sched.foldl stepTask s) := by
  induction sched generalizing s with
  | nil => exact h
  | cons hd tl ih => exact ih _ (loopInv_step s hd h)

lemma loopInv_runSched (n : Nat) (sched : List (Fin n)) :
    LoopInv (runSched n sched) :=
  loopInv_foldl sched (initLoop n) (loopInv_init n)

/-! ## The success-path attribute batch, characterized

The spec lists the exact attribute keys the middleware produces.  The
following definition restates that list in the spec's own terms (base
attributes, conditional body size, request headers minus `user-agent`,
response headers); the lemmas below prove the record built by the code
equals it, given that header names are unique after lowercasing (the
Fetch `Headers` object guarantees case-insensitively unique names). -/

lemma recordSet_append (m : List (String × AttrValue)) (k : String)
    (v : AttrValue) (h : m.any (fun p => p.1 == k) = false) :
    recordSet m k v = m ++ [(k, v)] := by
  simp [recordSet, h]

lemma data_take_append (p a : String) (n : Nat) (h : n ≤ p.data.length) :
    ((p ++ a).data).take n = p.data.take n := by
  rw [String.data_append, List.take_append_eq_append_take,
      Nat.sub_eq_zero_of_le h, List.take_zero, List.append_nil]

lemma ne_of_data_take_ne (s t : String) (n : Nat)
    (h : s.data.take n ≠ t.data.take n) : s ≠ t :=
  fun he => h (by rw [he])

lemma append_ne_of_take (p a t : String) (n : Nat) (hn : n ≤ p.data.length)
    (h : p.data.take n ≠ t.data.take n) : p ++ a ≠ t := by
  apply ne_of_data_take_ne _ _ n
  rw [data_take_append p a n hn]
  exact h

lemma append_ne_append_of_take (p a q b : String) (n : Nat)
    (hp : n ≤ p.data.length) (hq : n ≤ q.data.length)
    (h : p.data.take n ≠ q.data.take n) : p ++ a ≠ q ++ b := by
  apply ne_of_data_take_ne _ _ n
  rw [data_take_append p a n hp, data_take_append q b n hq]
  exact h

lemma string_append_left_injective (p : String) :
    Function.Injective (fun s => p ++ s) := by
  intro a b h
  apply String.ext
  have h2 := congrArg String.data h
  simp only [String.data_append] at h2
  exact List.append_cancel_left h2

/-- The four base keys and the body-size key never collide with a
request-header attribute key. -/
lemma reqHeaderKey_ne_base (x : String) :
    "http.request.method" ≠ "http.request.header." ++ x ∧
    "url.path" ≠ "http.request.header." ++ x ∧
    "url.full" ≠ "http.request.header." ++ x ∧
    "http.response.status_code" ≠ "http.request.header." ++ x ∧
    "http.response.body.size" ≠ "http.request.header." ++ x :=
  ⟨(append_ne_of_take _ x _ 14 (by decide) (by decide)).symm,
   (append_ne_of_take _ x _ 1 (by decide) (by decide)).symm,
   (append_ne_of_take _ x _ 1 (by decide) (by decide)).symm,
   (append_ne_of_take _ x _ 8 (by decide) (by decide)).symm,
   (append_ne_of_take _ x _ 8 (by decide) (by decide)).symm⟩

/-- The four base keys and the body-size key never collide with a
response-header attribute key. -/
lemma respHeaderKey_ne_base (x : String) :
    "http.request.method" ≠ "http.response.header." ++ x ∧
    "url.path" ≠ "http.response.header." ++ x ∧
    "url.full" ≠ "http.response.header." ++ x ∧
    "http.response.status_code" ≠ "http.response.header." ++ x ∧
    "http.response.body.size" ≠ "http.response.header." ++ x :=
  ⟨(append_ne_of_take _ x _ 8 (by decide) (by decide)).symm,
   (append_ne_of_take _ x _ 1 (by decide) (by decide)).symm,
   (append_ne_of_take _ x _ 1 (by decide) (by decide)).symm,
   (append_ne_of_take _ x _ 15 (by decide) (by decide)).symm,
   (append_ne_of_take _ x _ 15 (by decide) (by decide)).symm⟩

/-- Request-header attribute keys never collide with response-header
attribute keys. -/
lemma reqHeaderKey_ne_respHeaderKey (x y : String) :
    "http.request.header." ++ x ≠ "http.response.header." ++ y :=
  append_ne_append_of_take _ _ _ _ 8 (by decide) (by decide) (by decide)

lemma foldl_if_skip {α β : Type} (g : β → Bool) (f : α → β → α)
    (l : List β) (init : α) :
    l.foldl (fun acc b => if g b then acc else f acc b) init
      = (l.filter fun b => !(g b)).foldl f init := by
  induction l generalizing init with
  | nil => rfl
  | cons hd tl ih =>
      by_cases h : g hd <;> simp [List.filter_cons, h, ih]

/-- Folding `recordSet` over entries whose keys are fresh for the
accumulator and pairwise distinct just appends the mapped entries. -/
lemma foldl_recordSet_eq_append
    (key : String × String → String) (value : String × String → AttrValue)
    (hs : List (String × String)) (m : List (String × AttrValue))
    (hfresh : ∀ kv ∈ hs, m.any (fun p => p.1 == key kv) = false)
    (hnodup : (hs.map key).Nodup) :
    hs.foldl (fun acc kv => recordSet acc (key kv) (value kv)) m
      = m ++ hs.map fun kv => (key kv, value kv) := by
  induction hs generalizing m with
  | nil => simp
  | cons hd tl ih =>
      have hfhd : m.any (fun p => p.1 == key hd) = false :=
        hfresh hd (List.mem_cons_self hd tl)
      have hnds : key hd ∉ tl.map key ∧ (tl.map key).Nodup := by
        rw [List.map_cons] at hnodup
        exact List.nodup_cons.mp hnodup
      have hfresh' : ∀ kv ∈ tl,
          (m ++ [(key hd, value hd)]).any (fun p => p.1 == key kv) = false := by
        intro kv hkv
        rw [List.any_append]
        have h1 := hfresh kv (List.mem_cons_of_mem hd hkv)
        have h2 : key hd ≠ key kv :=
          fun he => hnds.1 (he ▸ List.mem_map_of_mem key hkv)
        simp [h1, beq_eq_false_iff_ne.mpr h2]
      rw [List.foldl_cons, recordSet_append m (key hd) (value hd) hfhd,
          ih (m ++ [(key hd, value hd)]) hfresh' hnds.2]
      simp

/-- Running both header folds over an accumulator whose keys avoid the
two header-attribute key shapes appends exactly the request-header
entries (minus `user-agent`) and then the response-header entries. -/
lemma headerFolds_eq_append (hs1 hs2 : List (String × String))
    (m : List (String × AttrValue))
    (H1 : (hs1.map fun kv => jsToLower kv.1).Nodup)
    (H2 : (hs2.map fun kv => jsToLower kv.1).Nodup)
    (hf1 : ∀ kv ∈ hs1,
      m.any (fun p => p.1 == "http.request.header." ++ jsToLower kv.1) = false)
    (hf2 : ∀ kv ∈ hs2,
      m.any (fun p => p.1 == "http.response.header." ++ jsToLower kv.1) = false) :
    hs2.foldl
      (fun acc kv =>
        recordSet acc ("http.response.header." ++ jsToLower kv.1)
          (AttrValue.str kv.2))
      (hs1.foldl
        (fun acc kv =>
          if jsToLower kv.1 == "user-agent" then acc
          else recordSet acc ("http.request.header." ++ jsToLower kv.1)
            (AttrValue.str kv.2)) m)
    = m ++ requestHeaderAttrs hs1 ++ responseHeaderAttrs hs2 := by
  have hreqnodup : ((hs1.filter fun kv => !(jsToLower kv.1 == "user-agent")).map
      fun kv => "http.request.header." ++ jsToLower kv.1).Nodup := by
    have hsub : List.Sublist
        ((hs1.filter fun kv => !(jsToLower kv.1 == "user-agent")).map
          fun kv => jsToLower kv.1)
        (hs1.map fun kv => jsToLower kv.1) :=
      (List.filter_sublist _).map _
    have hnd := hsub.nodup H1
    have := hnd.map (string_append_left_injective "http.request.header.")
    simpa [List.map_map, Function.comp] using this
  have hrespnodup : (hs2.map
      fun kv => "http.response.header." ++ jsToLower kv.1).Nodup := by
    have := H2.map (string_append_left_injective "http.response.header.")
    simpa [List.map_map, Function.comp] using this
  have hf1' : ∀ kv ∈ (hs1.filter fun kv => !(jsToLower kv.1 == "user-agent")),
      m.any (fun p => p.1 == "http.request.header." ++ jsToLower kv.1) = false :=
    fun kv hkv => hf1 kv (List.mem_of_mem_filter hkv)
  have hf2' : ∀ kv ∈ hs2,
      ((m ++ (hs1.filter fun kv => !(jsToLower kv.1 == "user-agent")).map
          fun kv => ("http.request.header." ++ jsToLower kv.1,
            AttrValue.str kv.2)).any
        (fun p => p.1 == "http.response.header." ++ jsToLower kv.1)) = false := by
    intro kv hkv
    rw [List.any_append]
    have hx : (((hs1.filter fun kv => !(jsToLower kv.1 == "user-agent")).map
        fun kv => ("http.request.header." ++ jsToLower kv.1,
          AttrValue.str kv.2)).any
        (fun p => p.1 == "http.response.header." ++ jsToLower kv.1)) = false := by
      simp only [List.any_eq_false]
      intro kv' hkv'
      simp only [List.mem_map] at hkv'
      obtain ⟨kv0, hkv0, rfl⟩ := hkv'
      simpa using reqHeaderKey_ne_respHeaderKey (jsToLower kv0.1) (jsToLower kv.1)
    simp [hf2 kv hkv, hx]
  rw [foldl_if_skip]
  rw [foldl_recordSet_eq_append (fun kv => "http.request.header." ++ jsToLower kv.1)
        (fun kv => AttrValue.str kv.2) _ m hf1' hreqnodup]
  rw [foldl_recordSet_eq_append (fun kv => "http.response.header." ++ jsToLower kv.1)
        (fun kv => AttrValue.str kv.2) hs2 _ hf2' hrespnodup]
  simp [requestHeaderAttrs, responseHeaderAttrs, List.append_assoc]

/-- The record the middleware builds on success is exactly the
spec-described attribute batch, provided header names are unique after
lowercasing (guaranteed for Fetch `Headers`). -/
lemma successAttributes_eq_spec (req : Request) (resp : Response)
    (H1 : (req.headers.map fun kv => jsToLower kv.1).Nodup)
    (H2 : (resp.headers.map fun kv => jsToLower kv.1).Nodup) :
    successAttributes req resp = specSuccessAttributes req resp := by
  cases hb : resp.body with
  | none =>
      have hf1 : ∀ kv ∈ req.headers,
          ([("http.request.method", AttrValue.str req.method),
            ("url.path", AttrValue.str req.url.pathname),
            ("url.full", AttrValue.str req.url.href),
            ("http.response.status_code", AttrValue.num resp.status)].any
            (fun p => p.1 == "http.request.header." ++ jsToLower kv.1)) = false := by
        intro kv _
        obtain ⟨n1, n2, n3, n4, _⟩ := reqHeaderKey_ne_base (jsToLower kv.1)
        simp [beq_eq_false_iff_ne.mpr n1, beq_eq_false_iff_ne.mpr n2,
              beq_eq_false_iff_ne.mpr n3, beq_eq_false_iff_ne.mpr n4]
      have hf2 : ∀ kv ∈ resp.headers,
          ([("http.request.method", AttrValue.str req.method),
            ("url.path", AttrValue.str req.url.pathname),
            ("url.full", AttrValue.str req.url.href),
            ("http.response.status_code", AttrValue.num resp.status)].any
            (fun p => p.1 == "http.response.header." ++ jsToLower kv.1)) = false := by
        intro kv _
        obtain ⟨m1, m2, m3, m4, _⟩ := respHeaderKey_ne_base (jsToLower kv.1)
        simp [beq_eq_false_iff_ne.mpr m1, beq_eq_false_iff_ne.mpr m2,
              beq_eq_false_iff_ne.mpr m3, beq_eq_false_iff_ne.mpr m4]
      simp only [successAttributes, specSuccessAttributes, hb]
      rw [headerFolds_eq_append req.headers resp.headers _ H1 H2 hf1 hf2]
      simp
  | some b =>
      have hf1 : ∀ kv ∈ req.headers,
          ([("http.request.method", AttrValue.str req.method),
            ("url.path", AttrValue.str req.url.pathname),
            ("url.full", AttrValue.str req.url.href),
            ("http.response.status_code", AttrValue.num resp.status),
            ("http.response.body.size", AttrValue.num b.text.length)].any
            (fun p => p.1 == "http.request.header." ++ jsToLower kv.1)) = false := by
        intro kv _
        obtain ⟨n1, n2, n3, n4, n5⟩ := reqHeaderKey_ne_base (jsToLower kv.1)
        simp [beq_eq_false_iff_ne.mpr n1, beq_eq_false_iff_ne.mpr n2,
              beq_eq_false_iff_ne.mpr n3, beq_eq_false_iff_ne.mpr n4,
              beq_eq_false_iff_ne.mpr n5]
      have hf2 : ∀ kv ∈ resp.headers,
          ([("http.request.method", AttrValue.str req.method),
            ("url.path", AttrValue.str req.url.pathname),
            ("url.full", AttrValue.str req.url.href),
            ("http.response.status_code", AttrValue.num resp.status),
            ("http.response.body.size", AttrValue.num b.text.length)].any
            (fun p => p.1 == "http.response.header." ++ jsToLower kv.1)) = false := by
        intro kv _
        obtain ⟨m1, m2, m3, m4, m5⟩ := respHeaderKey_ne_base (jsToLower kv.1)
        simp [beq_eq_false_iff_ne.mpr m1, beq_eq_false_iff_ne.mpr m2,
              beq_eq_false_iff_ne.mpr m3, beq_eq_false_iff_ne.mpr m4,
              beq_eq_false_iff_ne.mpr m5]
      simp only [successAttributes, specSuccessAttributes, hb, Response.clone,
        Response.text, Option.map_some']
      rw [recordSet_append _ _ _ (by rfl)]
      simp only [List.cons_append, List.nil_append]
      rw [headerFolds_eq_append req.headers resp.headers _ H1 H2 hf1 hf2]
      simp

/-! ## The claims -/

/-- C1: for every invocation of the middleware returned by
`opentelemetry()`, exactly one span is created and exactly one span is
ended — whether `next()` returns normally, throws synchronously, or
rejects asynchronously — and the finalization (rename then end) runs
exactly once per request, after the try/catch logic, as the final two
span operations. -/
theorem claim1_exactly_one_span (req : Request) (next : CallOutcome Response) :
    ((middlewareRun req next).events.countP fun ev => ev.isStart) = 1 ∧
    ((middlewareRun req next).events.countP fun ev => ev.isEnd) = 1 ∧
    ∃ pre, (middlewareRun req next).events =
        pre ++ [SpanEvent.updateName (req.method ++ " " ++ req.url.pathname),
                SpanEvent.endSpan] ∧
      (pre.countP fun ev => ev.isEnd) = 0 := by
  cases next with
  | syncThrow e =>
      cases e with
      | err m =>
          exact ⟨rfl, rfl,
            ⟨[SpanEvent.startSpan "request" .server
                (OtelCtx.extracted (headerMapping req)),
              SpanEvent.setStatus .error (some m),
              SpanEvent.recordException (.err m)], rfl, rfl⟩⟩
      | nonError s =>
          exact ⟨rfl, rfl,
            ⟨[SpanEvent.startSpan "request" .server
                (OtelCtx.extracted (headerMapping req)),
              SpanEvent.setStatus .error (some s)], rfl, rfl⟩⟩
  | resolves r =>
      exact ⟨rfl, rfl,
        ⟨[SpanEvent.startSpan "request" .server
            (OtelCtx.extracted (headerMapping req)),
          SpanEvent.setStatus .ok none,
          SpanEvent.setAttributes (successAttributes req r)], rfl, rfl⟩⟩
  | rejects e =>
      cases e with
      | err m =>
          exact ⟨rfl, rfl,
            ⟨[SpanEvent.startSpan "request" .server
                (OtelCtx.extracted (headerMapping req)),
              SpanEvent.setStatus .error (some m),
              SpanEvent.recordException (.err m)], rfl, rfl⟩⟩
      | nonError s =>
          exact ⟨rfl, rfl,
            ⟨[SpanEvent.startSpan "request" .server
                (OtelCtx.extracted (headerMapping req)),
              SpanEvent.setStatus .error (some s)], rfl, rfl⟩⟩

/-- C4: when `next()` throws or rejects with `e`, the middleware sets the
span status to Error with message `e.message` when `e` is an `Error`
instance and `String(e)` otherwise, records `e` as an exception only when
it is an `Error` instance, re-throws the very same error value `e`
(never converting it into a response), and behaves identically for a
synchronous throw and an asynchronous rejection. -/
theorem claim4_error_annotation (req : Request) (e : JsError) :
    (middlewareRun req (.syncThrow e)).result = Except.error e ∧
    (middlewareRun req (.rejects e)).result = Except.error e ∧
    (middlewareRun req (.rejects e)).events =
      [SpanEvent.startSpan "request" .server
         (OtelCtx.extracted (headerMapping req)),
       SpanEvent.setStatus .error
         (some (match e with | .err m => m | .nonError s => s))] ++
      (match e with
       | .err _ => [SpanEvent.recordException e]
       | .nonError _ => []) ++
      [SpanEvent.updateName (req.method ++ " " ++ req.url.pathname),
       SpanEvent.endSpan] ∧
    (middlewareRun req (.syncThrow e)).events =
      (middlewareRun req (.rejects e)).events := by
  cases e with
  | err m => exact ⟨rfl, rfl, rfl, rfl⟩
  | nonError s => exact ⟨rfl, rfl, rfl, rfl⟩

/-- C5: when `next()` returns a response, the span status is set to Ok and
the attributes applied to the span in one batch are exactly the method,
path, full URL, numeric status code, the body size when a body is present,
one lowercased `http.request.header.<name>` entry per request header
except `user-agent`, and one lowercased `http.response.header.<name>`
entry per response header — under the Fetch `Headers` guarantee that
header names are unique after lowercasing. -/
theorem claim5_success_attributes (req : Request) (resp : Response)
    (H1 : (req.headers.map fun kv => jsToLower kv.1).Nodup)
    (H2 : (resp.headers.map fun kv => jsToLower kv.1).Nodup) :
    (middlewareRun req (.resolves resp)).events =
      [SpanEvent.startSpan "request" .server
         (OtelCtx.extracted (headerMapping req)),
       SpanEvent.setStatus .ok none,
       SpanEvent.setAttributes (specSuccessAttributes req resp),
       SpanEvent.updateName (req.method ++ " " ++ req.url.pathname),
       SpanEvent.endSpan] := by
  have h := successAttributes_eq_spec req resp H1 H2
  simp [middlewareRun, awaitCall, h]

/-- Witness for C5 at a concrete request/response pair. -/
theorem claim5_success_attributes_witness :
    ((([("Accept", "text/html"), ("User-Agent", "bun-test")] :
        List (String × String)).map fun kv => jsToLower kv.1).Nodup) ∧
    ((([("Content-Type", "application/json")] :
        List (String × String)).map fun kv => jsToLower kv.1).Nodup) ∧
    (middlewareRun
        { method := "GET",
          url := { href := "http://localhost/search", pathname := "/search" },
          headers := [("Accept", "text/html"), ("User-Agent", "bun-test")] }
        (.resolves
          { status := 200,
            headers := [("Content-Type", "application/json")],
            body := some { text := "hello", consumed := false } })).events =
      [SpanEvent.startSpan "request" .server
         (OtelCtx.extracted (headerMapping
           { method := "GET",
             url := { href := "http://localhost/search", pathname := "/search" },
             headers := [("Accept", "text/html"), ("User-Agent", "bun-test")] })),
       SpanEvent.setStatus .ok none,
       SpanEvent.setAttributes (specSuccessAttributes
         { method := "GET",
           url := { href := "http://localhost/search", pathname := "/search" },
           headers := [("Accept", "text/html"), ("User-Agent", "bun-test")] }
         { status := 200,
           headers := [("Content-Type", "application/json")],
           body := some { text := "hello", consumed := false } }),
       SpanEvent.updateName ("GET" ++ " " ++ "/search"),
       SpanEvent.endSpan] :=
  ⟨by decide, by decide,
   claim5_success_attributes
     { method := "GET",
       url := { href := "http://localhost/search", pathname := "/search" },
       headers := [("Accept", "text/html"), ("User-Agent", "bun-test")] }
     { status := 200,
       headers := [("Content-Type", "application/json")],
       body := some { text := "hello", consumed := false } }
     (by decide) (by decide)⟩

/-- C6: when `next()` returns a response, the middleware returns that very
response unchanged; the body-size measurement happens on a clone, so the
returned response — being the identical value `next()` produced — still
carries its body stream unconsumed and fully readable. -/
theorem claim6_response_unchanged (req : Request) (resp : Response) :
    (middlewareRun req (.resolves resp)).result = Except.ok resp := rfl

/-- C7: the span is started with the generic name `"request"`, kind
server, as a child of the context extracted from the request headers, and
on completion — success or failure — it is renamed to
`"<METHOD> <pathname>"` and then ended. -/
theorem claim7_span_naming (req : Request) (next : CallOutcome Response) :
    ∃ mid, (middlewareRun req next).events =
      SpanEvent.startSpan "request" SpanKind.server
          (OtelCtx.extracted (headerMapping req)) ::
        mid ++ [SpanEvent.updateName (req.method ++ " " ++ req.url.pathname),
                SpanEvent.endSpan] := by
  cases next with
  | syncThrow e =>
      cases e with
      | err m =>
          exact ⟨[SpanEvent.setStatus .error (some m),
                  SpanEvent.recordException (.err m)], rfl⟩
      | nonError s => exact ⟨[SpanEvent.setStatus .error (some s)], rfl⟩
  | resolves r =>
      exact ⟨[SpanEvent.setStatus .ok none,
              SpanEvent.setAttributes (successAttributes req r)], rfl⟩
  | rejects e =>
      cases e with
      | err m =>
          exact ⟨[SpanEvent.setStatus .error (some m),
                  SpanEvent.recordException (.err m)], rfl⟩
      | nonError s => exact ⟨[SpanEvent.setStatus .error (some s)], rfl⟩

/-- C10: on the failure path the middleware sets no attributes at all on
the span — no `setAttributes` operation is among the failed request's
span operations, for a synchronous throw as well as an asynchronous
rejection. -/
theorem claim10_no_attributes_on_failure (req : Request) (e : JsError) :
    ((middlewareRun req (.syncThrow e)).events.all fun ev => !ev.isSetAttrs)
      = true ∧
    ((middlewareRun req (.rejects e)).events.all fun ev => !ev.isSetAttrs)
      = true := by
  cases e with
  | err m => exact ⟨rfl, rfl⟩
  | nonError s => exact ⟨rfl, rfl⟩

/-- C9: `setAttributes` returns true exactly when a current span is
active (`getCurrentSpan` yields a span); in that case the attributes are
set on that span, and when no span is active it returns false and sets
nothing. -/
theorem claim9_setAttributes_iff_active (active : Option SpanState)
    (attributes : List (String × AttrValue)) :
    ((setAttributes active attributes).1 = (getCurrentSpan active).isSome) ∧
    (setAttributes none attributes = (false, none)) ∧
    (∀ s : SpanState, setAttributes (some s) attributes =
      (true, some { s with
        log := s.log ++ [SpanEvent.setAttributes attributes] })) := by
  refine ⟨?_, rfl, fun s => rfl⟩
  cases active with
  | none => rfl
  | some s => rfl

/-- C2: for `n` concurrently in-flight middleware invocations interleaved
arbitrarily on one event loop, each invocation's handler observes the span
bound into its own per-invocation context value, and the trace identifiers
observed by distinct invocations are pairwise distinct, as are the span
identifiers. -/
theorem claim2_concurrent_distinct_ids (n : Nat) (sched : List (Fin n))
    (i j : Fin n) (ti si tj sj : Nat) (hij : i ≠ j)
    (hi : (runSched n sched).tasks i = .done ti si)
    (hj : (runSched n sched).tasks j = .done tj sj) :
    ti ≠ tj ∧ si ≠ sj := by
  obtain ⟨hbound, hdist⟩ := loopInv_runSched n sched
  have hti := hbound i (ti, si) (by simp [hi, TaskPhase.ids])
  have htj := hbound j (tj, sj) (by simp [hj, TaskPhase.ids])
  have hne := hdist i j (ti, si) (tj, sj) hij (by simp [hi, TaskPhase.ids])
    (by simp [hj, TaskPhase.ids])
  simp only [Prod.fst, Prod.snd] at hti htj hne
  exact ⟨hne, by omega⟩

/-- Witness for C2: two invocations interleaved start-start-observe-observe
end up with distinct trace ids and distinct span ids. -/
theorem claim2_concurrent_distinct_ids_witness :
    ((0 : Fin 2) ≠ (1 : Fin 2)) ∧
    ((runSched 2 [0, 1, 0, 1]).tasks 0 = TaskPhase.done 0 0) ∧
    ((runSched 2 [0, 1, 0, 1]).tasks 1 = TaskPhase.done 1 1) ∧
    ((0 : Nat) ≠ 1 ∧ (0 : Nat) ≠ 1) :=
  ⟨by decide, by decide, by decide,
   claim2_concurrent_distinct_ids 2 [0, 1, 0, 1] 0 1 0 0 1 1 (by decide)
     (by decide) (by decide)⟩

/-- C3 fails as stated: with a recording span, a work function returning a
promise that rejects propagates the rejection with NO span operation — no
Error status, no recorded exception, no `end` — whereas a synchronous
throw performs the full sequence, so the synchronous and asynchronous
failure behaviors are not identical. -/
theorem claim3_counterexample :
    createActiveSpanHandler (α := Nat) { recording := true, log := [] }
        (.promise (.error (.err "boom")))
      = (Except.error (JsError.err "boom"),
         { recording := true, log := [] }) ∧
    createActiveSpanHandler (α := Nat) { recording := true, log := [] }
        (.promise (.error (.err "boom")))
      ≠ createActiveSpanHandler (α := Nat) { recording := true, log := [] }
        (.sync (.error (.err "boom"))) :=
  ⟨rfl, by decide⟩

/-- C3 (amended): when the work function throws synchronously, the wrapper
sets status Error with `err?.message`, records the exception, ends the
span and re-throws the original error if the span is still recording, and
re-throws with no span mutation if it is not; but when the work function
returns a promise that rejects, the wrapper attaches no rejection handler,
so the rejection propagates unchanged with no span mutation and the span
is not ended — the synchronous and asynchronous failure paths differ. -/
theorem claim3_amended {α : Type} (span : SpanState) (e : JsError) :
    (span.recording = true →
      createActiveSpanHandler (α := α) span (.sync (.error e)) =
        (Except.error e,
         { recording := false,
           log := span.log ++
             [SpanEvent.setStatus .error e.jsMessage,
              SpanEvent.recordException e, SpanEvent.endSpan] })) ∧
    (span.recording = false →
      createActiveSpanHandler (α := α) span (.sync (.error e)) =
        (Except.error e, span)) ∧
    (createActiveSpanHandler (α := α) span (.promise (.error e)) =
      (Except.error e, span)) := by
  refine ⟨fun h => ?_, fun h => ?_, rfl⟩
  · simp [createActiveSpanHandler, h, SpanState.setStatus,
      SpanState.recordException, SpanState.endSpan]
  · simp [createActiveSpanHandler, h]

/-- Witness for C3 (amended) at a concrete recording span. -/
theorem claim3_amended_witness :
    ({ recording := true, log := [] } : SpanState).recording = true ∧
    createActiveSpanHandler (α := Nat) { recording := true, log := [] }
        (.sync (.error (.err "boom"))) =
      (Except.error (JsError.err "boom"),
       { recording := false,
         log := [SpanEvent.setStatus .error (some "boom"),
                 SpanEvent.recordException (.err "boom"),
                 SpanEvent.endSpan] }) :=
  ⟨rfl, (claim3_amended { recording := true, log := [] } (.err "boom")).1 rfl⟩

/-- C8 fails as stated: a failing SDK bootstrap is NOT swallowed — when
the resolved tracer is a proxy and constructing/starting the `NodeSDK`
throws, the `opentelemetry()` factory propagates that error instead of
returning a middleware function (only the context-manager installation is
wrapped in try/catch). -/
theorem claim8_counterexample :
    opentelemetryFactory
      { resolvedTracer := .proxy,
        sdkBootstrap := .error (.err "sdk bootstrap failed"),
        globalContextManagerInstalled := false,
        contextManager := none }
      = .error (.err "sdk bootstrap failed") := rfl

/-- C8 (amended): a context-manager installation failure is swallowed
silently — whenever the SDK bootstrap does not fail (or is skipped because
a real tracer is already installed), the factory returns the middleware
regardless of whether enabling the supplied context manager throws; but a
failure of the SDK bootstrap itself propagates out of the factory when the
resolved tracer is a proxy. -/
theorem claim8_amended (env : FactoryEnv) :
    (∀ e : JsError, env.resolvedTracer = .proxy →
      env.sdkBootstrap = .error e → opentelemetryFactory env = .error e) ∧
    ((env.resolvedTracer = .real ∨ env.sdkBootstrap = Except.ok ()) →
      opentelemetryFactory env =
        Except.ok
          { middlewareReturned := true,
            contextManagerInstalled :=
              !env.globalContextManagerInstalled &&
                (match env.contextManager with
                 | some (.ok _) => true
                 | _ => false) }) := by
  obtain ⟨rt, sb, g, cm⟩ := env
  refine ⟨?_, ?_⟩
  · rintro e rfl rfl
    rfl
  · rintro (rfl | rfl)
    · cases g <;> rcases cm with _ | (e | u) <;> cases sb <;> rfl
    · cases rt <;> cases g <;> rcases cm with _ | (e | u) <;> rfl

/-- Witness for C8 (amended): a propagated bootstrap failure, and a
swallowed context-manager failure. -/
theorem claim8_amended_witness :
    (TracerKind.proxy = TracerKind.proxy) ∧
    opentelemetryFactory
      { resolvedTracer := .proxy, sdkBootstrap := .error (.err "x"),
        globalContextManagerInstalled := false, contextManager := none }
      = .error (.err "x") ∧
    ((TracerKind.real = TracerKind.real) ∨
      (Except.ok () : Except JsError Unit) = Except.ok ()) ∧
    opentelemetryFactory
      { resolvedTracer := .real, sdkBootstrap := Except.ok (),
        globalContextManagerInstalled := false,
        contextManager := some (.error (.err "enable failed")) }
      = Except.ok { middlewareReturned := true,
                    contextManagerInstalled := false } :=
  ⟨rfl, (claim8_amended _).1 (.err "x") rfl rfl, Or.inl rfl,
   (claim8_amended _).2 (Or.inl rfl)⟩

end VafastOtel
